import Mathlib

/-!
Verification development for the certomancer-as-a-service repository
(`certomancer_aas.py` and the older `wsgi.py` variant).

The development shallowly embeds the Redis-backed architecture store and
certificate cache.  Python byte strings are `List Nat` (each element a byte
value), Redis is an association list from keys to (value, ttl) entries, and
the external collaborators (YAML parsing, certomancer's architecture
builder) are abstract function parameters.  SHA-1 and strict UTF-8 decoding
are implemented concretely, since the code's observable behaviour (labels,
error taxonomy) depends on them.
-/

set_option maxRecDepth 100000

/-- A Python byte string: a list of byte values (each `< 256`). -/
abbrev Bytes := List Nat

/-- Word size modulus for SHA-1's 32-bit arithmetic. -/
def M32 : Nat := 4294967296

/-- Left-rotation of a 32-bit word by `s` bits. -/
def rotl (s x : Nat) : Nat := ((x <<< s) ||| (x >>> (32 - s))) % M32

/-- Big-endian encoding of `val` into `n` bytes. -/
def toBE (n val : Nat) : Bytes :=
  (List.range n).map (fun i => val / 2 ^ (8 * (n - 1 - i)) % 256)

/-- SHA-1 message padding: append `0x80`, zero bytes up to 56 mod 64, then
the bit length as 8 big-endian bytes. -/
def sha1pad (msg : Bytes) : Bytes :=
  let l := msg.length
  let k := (56 + 64 - (l + 1) % 64) % 64
  msg ++ [128] ++ List.replicate k 0 ++ toBE 8 (8 * l)

/-- Group bytes into big-endian 32-bit words. -/
def bytesToWords : Bytes → List Nat
  | a :: b :: c :: d :: rest =>
      (((a * 256 + b) * 256 + c) * 256 + d) :: bytesToWords rest
  | _ => []

/-- SHA-1 message-schedule extension from 16 to 80 words. -/
def sha1extend (w : Array Nat) : Array Nat :=
  (List.range 64).foldl
    (fun w j =>
      w.push (rotl 1 ((w[j + 13]! ^^^ w[j + 8]!) ^^^ (w[j + 2]! ^^^ w[j]!))))
    w

/-- One SHA-1 round on state `(a, b, c, d, e)` with round index `i` and
schedule word `wi`. -/
def sha1round (st : Nat × Nat × Nat × Nat × Nat) (i wi : Nat) :
    Nat × Nat × Nat × Nat × Nat :=
  let (a, b, c, d, e) := st
  let f :=
    if i < 20 then (b &&& c) ||| ((b ^^^ 4294967295) &&& d)
    else if i < 40 then (b ^^^ c) ^^^ d
    else if i < 60 then ((b &&& c) ||| (b &&& d)) ||| (c &&& d)
    else (b ^^^ c) ^^^ d
  let k :=
    if i < 20 then 1518500249
    else if i < 40 then 1859775393
    else if i < 60 then 2400959708
    else 3395469782
  let temp := (rotl 5 a + f + e + k + wi) % M32
  (temp, a, rotl 30 b, c, d)

/-- SHA-1 compression of one 64-byte block into the running hash state. -/
def sha1block (h : Nat × Nat × Nat × Nat × Nat) (block : Bytes) :
    Nat × Nat × Nat × Nat × Nat :=
  let w := sha1extend (bytesToWords block).toArray
  let (a, b, c, d, e) :=
    (List.range 80).foldl (fun st i => sha1round st i (w[i]!)) h
  let (h0, h1, h2, h3, h4) := h
  ((h0 + a) % M32, (h1 + b) % M32, (h2 + c) % M32, (h3 + d) % M32,
   (h4 + e) % M32)

/-- Fuel-driven worker for `chunks64`; structural recursion on the fuel so
that the kernel can evaluate it. -/
def chunks64Aux : Nat → Bytes → List Bytes
  | 0, _ => []
  | _ + 1, [] => []
  | fuel + 1, b :: rest => (b :: rest).take 64 :: chunks64Aux fuel ((b :: rest).drop 64)

/-- Split a byte list into 64-byte chunks (the input length is a multiple
of 64 after padding). -/
def chunks64 (l : Bytes) : List Bytes := chunks64Aux l.length l

/-- SHA-1 digest of a byte string, as 20 bytes
(mirrors `hashlib.sha1(config).digest()`). -/
def sha1 (msg : Bytes) : Bytes :=
  let hs :=
    (chunks64 (sha1pad msg)).foldl sha1block
      (1732584193, 4023233417, 2562383102, 271733878, 3285377520)
  toBE 4 hs.1 ++ toBE 4 hs.2.1 ++ toBE 4 hs.2.2.1 ++ toBE 4 hs.2.2.2.1 ++
    toBE 4 hs.2.2.2.2

/-- Lowercase hex digit for a nibble value. -/
def hexDigit (n : Nat) : Char :=
  if n < 10 then Char.ofNat (48 + n) else Char.ofNat (87 + n)

/-- Lowercase hex encoding of a byte string
(mirrors Python's `bytes.hex()`). -/
def bytesToHex (bs : Bytes) : String :=
  String.mk (bs.foldr (fun b acc => hexDigit (b / 16) :: hexDigit (b % 16) :: acc) [])

/-- Sanity check of the SHA-1 embedding against the standard test vector
for the ASCII string "abc". -/
theorem sha1_test_vector_abc :
    bytesToHex (sha1 [97, 98, 99]) =
      "a9993e364706816aba3e25717850c26c9cd0d89d" := by decide

/-- Whether a byte is a UTF-8 continuation byte (`10xxxxxx`). -/
def isCont (b : Nat) : Bool := 128 ≤ b && b < 192

/-- Fuel-driven strict UTF-8 decoder (the fuel is an upper bound on the
number of bytes, so structural recursion suffices and the kernel can
evaluate it).  Mirrors Python's `bytes.decode('utf8')`: rejects stray
continuation bytes, overlong encodings, surrogate code points and code
points above U+10FFFF. -/
def utf8DecodeAux : Nat → Bytes → List Char → Option (List Char)
  | 0, l, acc => if l = [] then some acc.reverse else none
  | _ + 1, [], acc => some acc.reverse
  | fuel + 1, b :: rest, acc =>
    if b < 128 then utf8DecodeAux fuel rest (Char.ofNat b :: acc)
    else if b < 194 then none
    else if b < 224 then
      match rest with
      | b1 :: rest1 =>
        if isCont b1 then
          utf8DecodeAux fuel rest1 (Char.ofNat ((b - 192) * 64 + (b1 - 128)) :: acc)
        else none
      | [] => none
    else if b < 240 then
      match rest with
      | b1 :: b2 :: rest2 =>
        if isCont b1 && isCont b2 then
          let cp := (b - 224) * 4096 + (b1 - 128) * 64 + (b2 - 128)
          if cp < 2048 || (55296 ≤ cp && cp < 57344) then none
          else utf8DecodeAux fuel rest2 (Char.ofNat cp :: acc)
        else none
      | _ => none
    else if b < 245 then
      match rest with
      | b1 :: b2 :: b3 :: rest3 =>
        if isCont b1 && isCont b2 && isCont b3 then
          let cp :=
            (b - 240) * 262144 + (b1 - 128) * 4096 + (b2 - 128) * 64 + (b3 - 128)
          if cp < 65536 || 1114111 < cp then none
          else utf8DecodeAux fuel rest3 (Char.ofNat cp :: acc)
        else none
      | _ => none
    else none

/-- Strict UTF-8 decoding of a byte string, `none` on invalid input
(mirrors `config.decode('utf8')`, which raises `UnicodeDecodeError`). -/
def utf8Decode (bs : Bytes) : Option String :=
  (utf8DecodeAux bs.length bs []).map String.mk

/-- A value held in Redis together with the expiry set when it was written
(the `ex=` argument of `SET`). -/
structure RedisEntry where
  value : Bytes
  ttl : Nat
deriving DecidableEq, Repr

/-- The state of the shared Redis store: an association list from keys to
entries, most recent write first. -/
structure RedisState where
  entries : List (String × RedisEntry)
deriving DecidableEq, Repr

/-- Redis `GET`: the entry currently stored under `k`, if any. -/
def RedisState.getEntry (s : RedisState) (k : String) : Option RedisEntry :=
  (s.entries.find? (fun p => p.1 == k)).map Prod.snd

/-- Redis `GET`, returning only the stored bytes. -/
def RedisState.get (s : RedisState) (k : String) : Option Bytes :=
  (s.getEntry k).map RedisEntry.value

/-- Redis `SET key value EX ttl`: unconditionally overwrites the entry and
(re)sets its expiry. -/
def RedisState.set (s : RedisState) (k : String) (v : Bytes) (ttl : Nat) :
    RedisState :=
  ⟨(k, ⟨v, ttl⟩) :: s.entries.filter (fun p => p.1 != k)⟩

/-- The Python exceptions that can cross the boundaries the claims are
about.  `yamlError` stands for `yaml.YAMLError`, `configurationError` for
certomancer's `ConfigurationError`, `unicodeDecodeError` for the error
raised by `bytes.decode('utf8')`, `badRequest` and `notFound` for the
werkzeug `HTTPException`s, `keyError` and `typeError` for the Python
built-ins. -/
inductive PyExc where
  | yamlError (msg : String)
  | configurationError (msg : String)
  | unicodeDecodeError
  | badRequest (msg : String)
  | notFound
  | keyError (item : String)
  | typeError
deriving DecidableEq, Repr

/-- An `asn1crypto.x509.Certificate` object, represented by its DER
encoding (all the cache code does with one is `dump` and `load` it). -/
structure Certificate where
  der : Bytes
deriving DecidableEq, Repr

/-- Mirrors `x509.Certificate.dump()`. -/
def Certificate.dump (c : Certificate) : Bytes := c.der

/-- Mirrors `x509.Certificate.load(result)`. -/
def Certificate.load (b : Bytes) : Certificate := ⟨b⟩

/-- A Python value as seen by `RedisBackedCertCache.__setitem__`, which
type-checks its argument: either an `x509.Certificate` or something else. -/
inductive PyValue where
  | cert (c : Certificate)
  | nonCert
deriving DecidableEq, Repr

/-- Mirrors `fmt_arch_config_name` (line 72 of `certomancer_aas.py` and
line 79 of `wsgi.py`): the shared-store key for an architecture's raw
configuration. -/
def fmt_arch_config_name (arch : String) : String :=
  "certomancer_" ++ arch ++ "_config"

/-- The state of a `RedisBackedCertCache` instance: the Redis handle, the
architecture label the cache is scoped to, the configured TTL, and the
local in-memory mapping `_cache`. -/
structure CertCache where
  redis : RedisState
  arch : String
  ttl : Nat
  cache : List (String × Certificate)
deriving DecidableEq, Repr

/-- The key layout used by `RedisBackedCertCache._fmt_item_name`, as a
function of the two labels. -/
def fmt_cert_item_name (arch item : String) : String :=
  "certomancer_" ++ arch ++ "_cert_" ++ item

/-- Mirrors `RedisBackedCertCache._fmt_item_name` (lines 87-88): the
shared-store key for one certificate, built from the cache's architecture
label and the certificate label. -/
def CertCache.fmt_item_name (cc : CertCache) (item : String) : String :=
  fmt_cert_item_name cc.arch item

/-- Mirrors `RedisBackedCertCache.__getitem__`: local mapping first; on
miss, Redis `GET` under the formatted key; `None` becomes `KeyError`,
otherwise the bytes are loaded as a certificate, cached locally and
returned. -/
def CertCache.getitem (cc : CertCache) (item : String) :
    Except PyExc (Certificate × CertCache) :=
  match cc.cache.lookup item with
  | some cert => .ok (cert, cc)
  | none =>
    match cc.redis.get (cc.fmt_item_name item) with
    | none => .error (.keyError item)
    | some result =>
      let cert := Certificate.load result
      .ok (cert, { cc with cache := (item, cert) :: cc.cache })

/-- Mirrors `RedisBackedCertCache.__setitem__`: rejects non-certificate
values with `TypeError`, otherwise Redis `SET` of the DER bytes with the
cache's TTL followed by the local-mapping update. -/
def CertCache.setitem (cc : CertCache) (item : String) (value : PyValue) :
    Except PyExc CertCache :=
  match value with
  | .nonCert => .error .typeError
  | .cert v =>
    let item_name := cc.fmt_item_name item
    .ok { cc with
          redis := cc.redis.set item_name v.dump cc.ttl,
          cache := (item, v) :: cc.cache }

/-- Mirrors `RedisBackedArchStore.load_from_yaml` (both variants): decode
the raw bytes as UTF-8, feed the text to `yaml.safe_load`, then invoke the
external `PKIArchitecture.build_architecture` with the architecture label,
the parsed configuration and a fresh `RedisBackedCertCache` scoped to that
label.  The external collaborators are abstract parameters:
`yaml_safe_load` fails with the message of a `yaml.YAMLError`, and
`build_architecture` fails with the message of a certomancer
`ConfigurationError` (its documented failure mode for bad configurations);
building constructs the architecture object without touching the
certificate cache, since certificate generation is deferred to later
`get_cert` calls. -/
def load_from_yaml {Cfg Arch : Type}
    (yaml_safe_load : String → Except String Cfg)
    (build_architecture : String → Cfg → CertCache → Except String Arch)
    (cert_ttl : Nat) (redis : RedisState) (arch : String) (config : Bytes) :
    Except PyExc Arch :=
  match utf8Decode config with
  | none => .error .unicodeDecodeError
  | some text =>
    match yaml_safe_load text with
    | .error m => .error (.yamlError m)
    | .ok parsed_config =>
      match build_architecture arch parsed_config ⟨redis, arch, cert_ttl, []⟩ with
      | .error m => .error (.configurationError m)
      | .ok parsed => .ok parsed

/-- Mirrors `RedisBackedArchStore.__getitem__` of `certomancer_aas.py`
(lines 196-209): return the predefined architecture on a hit in
`self.architectures`; otherwise fetch the raw configuration from Redis
under the architecture's config key, raising `NotFound` when it is absent
and rebuilding via `load_from_yaml` when it is present. -/
def ArchStore.getitem {Cfg Arch : Type}
    (architectures : String → Option Arch)
    (yaml_safe_load : String → Except String Cfg)
    (build_architecture : String → Cfg → CertCache → Except String Arch)
    (cert_ttl : Nat) (redis : RedisState) (item : String) :
    Except PyExc Arch :=
  match architectures item with
  | some a => .ok a
  | none =>
    match redis.get (fmt_arch_config_name item) with
    | none => .error .notFound
    | some config_from_redis =>
      load_from_yaml yaml_safe_load build_architecture cert_ttl redis item
        config_from_redis

/-- Mirrors `RedisBackedArchStore._get` of the older `wsgi.py` (lines
148-161).  The Python body of the dynamic branch is
`self.load_from_yaml(arch, config_from_redis)` with no `return`
statement, so on that path the function builds the architecture and then
falls off the end, returning `None`; the static branch returns the
architecture.  The result type `Option Arch` records exactly that. -/
def ArchStore.wsgi_get {Cfg Arch : Type}
    (architectures : String → Option Arch)
    (yaml_safe_load : String → Except String Cfg)
    (build_architecture : String → Cfg → CertCache → Except String Arch)
    (cert_ttl : Nat) (redis : RedisState) (arch : String) :
    Except PyExc (Option Arch) :=
  match architectures arch with
  | some a => .ok (some a)
  | none =>
    match redis.get (fmt_arch_config_name arch) with
    | none => .error .notFound
    | some config_from_redis =>
      match load_from_yaml yaml_safe_load build_architecture cert_ttl redis arch
          config_from_redis with
      | .error e => .error e
      | .ok _ => .ok none

/-- Mirrors `RedisBackedArchStore.register_new_architecture` of
`certomancer_aas.py` (lines 227-260): derive the label as the hex digest
of `SHA1(config)`, build via `load_from_yaml`, convert `yaml.YAMLError`
and `ConfigurationError` to `BadRequest(str(e))`, let any other exception
propagate, and on success unconditionally `SET` the raw configuration
under the config key with the architecture TTL.  The returned pair is the
outcome together with the Redis state after the call. -/
def register_new_architecture {Cfg Arch : Type}
    (yaml_safe_load : String → Except String Cfg)
    (build_architecture : String → Cfg → CertCache → Except String Arch)
    (cert_ttl arch_ttl : Nat) (redis : RedisState) (config : Bytes) :
    Except PyExc Arch × RedisState :=
  let arch_label := bytesToHex (sha1 config)
  match load_from_yaml yaml_safe_load build_architecture cert_ttl redis
      arch_label config with
  | .error (.yamlError m) => (.error (.badRequest m), redis)
  | .error (.configurationError m) => (.error (.badRequest m), redis)
  | .error e => (.error e, redis)
  | .ok arch =>
    (.ok arch,
     redis.set (fmt_arch_config_name arch_label) config arch_ttl)


/-- Trivial stand-in for `yaml.safe_load` that accepts every document
(used to instantiate the abstract external parser in concrete scenarios). -/
def trivYaml : String → Except String Unit := fun _ => Except.ok ()

/-- Stand-in for `yaml.safe_load` that rejects every document with a fixed
diagnostic message. -/
def failYaml : String → Except String Unit :=
  fun _ => Except.error "mapping values are not allowed here"

/-- Trivial stand-in for `PKIArchitecture.build_architecture` that accepts
every parsed configuration. -/
def trivBuild : String → Unit → CertCache → Except String Unit :=
  fun _ _ _ => Except.ok ()

/-- A Redis store with no entries. -/
def emptyRedis : RedisState := ⟨[]⟩

/-- Whether an exception is a werkzeug `BadRequest`. -/
def PyExc.isBadRequest : PyExc → Bool
  | .badRequest _ => true
  | _ => false

/-- A `SET` is an unconditional overwrite: afterwards the key holds exactly
the written value and TTL, whatever was stored before. -/
theorem RedisState.getEntry_set_self (s : RedisState) (k : String) (v : Bytes)
    (t : Nat) : (s.set k v t).getEntry k = some ⟨v, t⟩ := by
  simp [RedisState.set, RedisState.getEntry]

/-- Every byte produced by `toBE` is below 256. -/
theorem toBE_mem_lt (n v : Nat) : ∀ b ∈ toBE n v, b < 256 := by
  intro b hb
  simp only [toBE, List.mem_map] at hb
  obtain ⟨i, -, rfl⟩ := hb
  exact Nat.mod_lt _ (by decide)

/-- Every byte of a SHA-1 digest is below 256. -/
theorem sha1_bytes_lt (msg : Bytes) : ∀ b ∈ sha1 msg, b < 256 := by
  intro b hb
  simp only [sha1, List.mem_append] at hb
  rcases hb with ((((h | h) | h) | h) | h) <;> exact toBE_mem_lt _ _ _ h

/-- Applying `hexDigit` to a nibble yields a lowercase hex character. -/
theorem hexDigit_contains : ∀ m < 16,
    ("0123456789abcdef".data.contains (hexDigit m)) = true := by decide

/-- The hex encoding of a byte string consists only of lowercase hex
characters. -/
theorem bytesToHex_all_lowercase :
    ∀ bs : Bytes, (∀ b ∈ bs, b < 256) →
      ((bytesToHex bs).data.all
        fun ch => "0123456789abcdef".data.contains ch) = true
  | [], _ => by decide
  | b :: rest, hb => by
    have h1 : b / 16 < 16 := Nat.div_lt_of_lt_mul (by have := hb b (by simp); omega)
    have h2 := hexDigit_contains (b / 16) h1
    have h3 := hexDigit_contains (b % 16) (Nat.mod_lt _ (by decide))
    have ih := bytesToHex_all_lowercase rest (fun x hx => hb x (by simp [hx]))
    simp only [bytesToHex, List.foldr, List.all_cons, Bool.and_eq_true] at ih ⊢
    exact ⟨h2, h3, ih⟩

/-- Encoding with `toBE` produces exactly `n` bytes. -/
theorem toBE_length (n v : Nat) : (toBE n v).length = n := by
  simp [toBE]

/-- A SHA-1 digest is 20 bytes long. -/
theorem sha1_length (msg : Bytes) : (sha1 msg).length = 20 := by
  simp [sha1, toBE_length]

/-- Hex encoding doubles the length. -/
theorem bytesToHex_length : ∀ bs : Bytes, (bytesToHex bs).length = 2 * bs.length
  | [] => rfl
  | b :: rest => by
    have ih := bytesToHex_length rest
    simp only [bytesToHex, String.length, List.foldr, List.length_cons] at ih ⊢
    omega

/-- Successful path through `load_from_yaml`: when decoding, parsing and
building all succeed, the built architecture is returned. -/
theorem load_from_yaml_ok {Cfg Arch : Type}
    (ysl : String → Except String Cfg)
    (build : String → Cfg → CertCache → Except String Arch)
    (cert_ttl : Nat) (redis : RedisState) (arch : String) (config : Bytes)
    (text : String) (cfg : Cfg) (a : Arch)
    (hdec : utf8Decode config = some text)
    (hparse : ysl text = .ok cfg)
    (hbuild : build arch cfg ⟨redis, arch, cert_ttl, []⟩ = .ok a) :
    load_from_yaml ysl build cert_ttl redis arch config = .ok a := by
  simp [load_from_yaml, hdec, hparse, hbuild]

deriving instance DecidableEq for Except

/-- A store that already holds configuration bytes (the single byte `a`)
under the config key of label `abc`. -/
def redisWithAbc : RedisState :=
  RedisState.set emptyRedis (fmt_arch_config_name "abc") [97] 5

/-- A static architecture table containing just the label `static1`. -/
def staticOnly : String → Option Nat :=
  fun l => if l == "static1" then some 0 else none

/-- An empty static architecture table. -/
def noStatics : String → Option Nat := fun _ => none

/-- Trivial stand-in builder producing a `Nat`-valued architecture. -/
def trivBuildN : String → Unit → CertCache → Except String Nat :=
  fun _ _ _ => Except.ok 7

/-- C1: register is deterministic in its derived identity.  The label under
which a successful registration persists its bytes is the lowercase hex
encoding of the SHA-1 digest of exactly the submitted bytes (the builder is
invoked with that label and the store key is derived from it), the label
consists only of lowercase hex characters and has the length of a hex SHA-1
digest, and byte-identical submissions yield the same label and the same
result. -/
theorem register_label_is_lowercase_sha1_hex {Cfg Arch : Type}
    (ysl : String → Except String Cfg)
    (build : String → Cfg → CertCache → Except String Arch)
    (cert_ttl arch_ttl : Nat) (redis : RedisState) (config c1 c2 : Bytes)
    (text : String) (cfg : Cfg) (arch : Arch)
    (hdec : utf8Decode config = some text)
    (hparse : ysl text = .ok cfg)
    (hbuild : build (bytesToHex (sha1 config)) cfg
        ⟨redis, bytesToHex (sha1 config), cert_ttl, []⟩ = .ok arch)
    (hc : c1 = c2) :
    register_new_architecture ysl build cert_ttl arch_ttl redis config =
      (.ok arch,
       redis.set ("certomancer_" ++ bytesToHex (sha1 config) ++ "_config")
         config arch_ttl) ∧
    ((bytesToHex (sha1 config)).data.all
      fun ch => "0123456789abcdef".data.contains ch) = true ∧
    (bytesToHex (sha1 config)).length = 40 ∧
    bytesToHex (sha1 c1) = bytesToHex (sha1 c2) ∧
    register_new_architecture ysl build cert_ttl arch_ttl redis c1 =
      register_new_architecture ysl build cert_ttl arch_ttl redis c2 := by
  have hload := load_from_yaml_ok ysl build cert_ttl redis
    (bytesToHex (sha1 config)) config text cfg arch hdec hparse hbuild
  refine ⟨?_, bytesToHex_all_lowercase _ (sha1_bytes_lt _), ?_,
    by rw [hc], by rw [hc]⟩
  · simp [register_new_architecture, hload, fmt_arch_config_name]
  · rw [bytesToHex_length, sha1_length]

/-- Witness for C1: registration of the single byte `a` with trivial
external parser and builder. -/
theorem register_label_is_lowercase_sha1_hex_witness :
    register_new_architecture trivYaml trivBuild 1 2 emptyRedis [97] =
      (.ok (),
       emptyRedis.set ("certomancer_" ++ bytesToHex (sha1 [97]) ++ "_config")
         [97] 2) ∧
    ((bytesToHex (sha1 [97])).data.all
      fun ch => "0123456789abcdef".data.contains ch) = true ∧
    (bytesToHex (sha1 [97])).length = 40 ∧
    bytesToHex (sha1 [98]) = bytesToHex (sha1 [98]) ∧
    register_new_architecture trivYaml trivBuild 1 2 emptyRedis [98] =
      register_new_architecture trivYaml trivBuild 1 2 emptyRedis [98] :=
  register_label_is_lowercase_sha1_hex trivYaml trivBuild 1 2 emptyRedis
    [97] [98] [98] "a" () () (by decide) rfl rfl rfl

/-- C3: on every successful registration the exact submitted bytes are
unconditionally written under `certomancer_` + label + `_config` with the
expiry (re)set to the architecture TTL — the resulting store is literally
the unconditional `SET` of that key, so a pre-existing entry under the key
is overwritten with the same bytes and a fresh TTL. -/
theorem register_unconditionally_sets_config_key {Cfg Arch : Type}
    (ysl : String → Except String Cfg)
    (build : String → Cfg → CertCache → Except String Arch)
    (cert_ttl arch_ttl : Nat) (redis : RedisState) (config : Bytes)
    (text : String) (cfg : Cfg) (arch : Arch)
    (hdec : utf8Decode config = some text)
    (hparse : ysl text = .ok cfg)
    (hbuild : build (bytesToHex (sha1 config)) cfg
        ⟨redis, bytesToHex (sha1 config), cert_ttl, []⟩ = .ok arch) :
    (register_new_architecture ysl build cert_ttl arch_ttl redis config).2 =
      redis.set ("certomancer_" ++ bytesToHex (sha1 config) ++ "_config")
        config arch_ttl ∧
    ((register_new_architecture ysl build cert_ttl arch_ttl redis config).2).getEntry
      ("certomancer_" ++ bytesToHex (sha1 config) ++ "_config") =
      some ⟨config, arch_ttl⟩ := by
  have hload := load_from_yaml_ok ysl build cert_ttl redis
    (bytesToHex (sha1 config)) config text cfg arch hdec hparse hbuild
  constructor
  · simp [register_new_architecture, hload, fmt_arch_config_name]
  · simp [register_new_architecture, hload, fmt_arch_config_name,
      RedisState.getEntry_set_self]

/-- Witness for C3: re-submission of the byte `a` over a store that already
holds the same bytes under the same config key with a different TTL; the
entry afterwards carries the architecture TTL `2`. -/
theorem register_unconditionally_sets_config_key_witness :
    (register_new_architecture trivYaml trivBuild 1 2
      (emptyRedis.set ("certomancer_" ++ bytesToHex (sha1 [97]) ++ "_config")
        [97] 7) [97]).2 =
      (emptyRedis.set ("certomancer_" ++ bytesToHex (sha1 [97]) ++ "_config")
        [97] 7).set
        ("certomancer_" ++ bytesToHex (sha1 [97]) ++ "_config") [97] 2 ∧
    ((register_new_architecture trivYaml trivBuild 1 2
      (emptyRedis.set ("certomancer_" ++ bytesToHex (sha1 [97]) ++ "_config")
        [97] 7) [97]).2).getEntry
      ("certomancer_" ++ bytesToHex (sha1 [97]) ++ "_config") =
      some ⟨[97], 2⟩ :=
  register_unconditionally_sets_config_key trivYaml trivBuild 1 2
    (emptyRedis.set ("certomancer_" ++ bytesToHex (sha1 [97]) ++ "_config")
      [97] 7) [97] "a" () () (by decide) rfl rfl

/-- C5: a failed registration performs no write to the shared store — the
Redis state after the call is the state before it, whatever the failure. -/
theorem register_failure_preserves_store {Cfg Arch : Type}
    (ysl : String → Except String Cfg)
    (build : String → Cfg → CertCache → Except String Arch)
    (cert_ttl arch_ttl : Nat) (redis : RedisState) (config : Bytes)
    (e : PyExc)
    (herr : (register_new_architecture ysl build cert_ttl arch_ttl redis
      config).1 = .error e) :
    (register_new_architecture ysl build cert_ttl arch_ttl redis config).2 =
      redis := by
  cases hload : load_from_yaml ysl build cert_ttl redis
      (bytesToHex (sha1 config)) config with
  | error ex => cases ex <;> simp [register_new_architecture, hload]
  | ok a => simp [register_new_architecture, hload] at herr

/-- Witness for C5: registering the byte `a` with a parser that rejects
every document leaves the store untouched. -/
theorem register_failure_preserves_store_witness :
    (register_new_architecture failYaml trivBuild 1 2 emptyRedis [97]).2 =
      emptyRedis :=
  register_failure_preserves_store failYaml trivBuild 1 2 emptyRedis [97]
    (.badRequest "mapping values are not allowed here") (by decide)

/-- C2 (code defect in `wsgi.py`): with no static architectures, a store
holding raw configuration bytes under the label's config key, and a parser
and builder that accept those bytes, the `certomancer_aas.py` resolver
returns the built architecture, but the `wsgi.py` resolver `_get` — whose
dynamic branch has no `return` statement — evaluates the rebuild and then
returns `None` instead of the architecture it just built. -/
theorem wsgi_get_discards_rebuilt_architecture :
    ArchStore.wsgi_get noStatics trivYaml trivBuildN 1 redisWithAbc "abc" =
      .ok none ∧
    ArchStore.getitem noStatics trivYaml trivBuildN 1 redisWithAbc "abc" =
      .ok 7 := by decide

/-- C4 counterexample: registering the single byte `0xff` — which is not
valid UTF-8 — with a parser and builder that accept every document fails,
but with an uncaught `UnicodeDecodeError` rather than with `BadRequest`:
the `except (yaml.YAMLError, ConfigurationError)` clause does not catch the
decode error raised by `config.decode('utf8')`. -/
theorem register_nonutf8_escapes_badrequest :
    (register_new_architecture trivYaml trivBuild 1 2 emptyRedis [255]).1 =
      .error .unicodeDecodeError ∧
    PyExc.unicodeDecodeError.isBadRequest = false := by decide

/-- C4 (amended): for every submitted byte sequence that decodes as UTF-8
and then fails at the YAML-parse or build stage, register raises
`BadRequest` carrying the underlying error message as diagnostic text and
leaves the store untouched (byte sequences that are not valid UTF-8
instead escape with an uncaught decode error, per the counterexample). -/
theorem register_parse_build_failure_is_badrequest {Cfg Arch : Type}
    (ysl : String → Except String Cfg)
    (build : String → Cfg → CertCache → Except String Arch)
    (cert_ttl arch_ttl : Nat) (redis : RedisState) (config : Bytes)
    (text m : String)
    (hdec : utf8Decode config = some text)
    (hstage : ysl text = .error m ∨
      ∃ cfg, ysl text = .ok cfg ∧
        build (bytesToHex (sha1 config)) cfg
          ⟨redis, bytesToHex (sha1 config), cert_ttl, []⟩ = .error m) :
    register_new_architecture ysl build cert_ttl arch_ttl redis config =
      (.error (.badRequest m), redis) := by
  rcases hstage with hy | ⟨cfg, hy, hb⟩
  · simp [register_new_architecture, load_from_yaml, hdec, hy]
  · simp [register_new_architecture, load_from_yaml, hdec, hy, hb]

/-- Witness for the amended C4: the byte `a` decodes as the document `"a"`,
which the failing parser rejects; register turns that into `BadRequest`
with the parser's message. -/
theorem register_parse_build_failure_is_badrequest_witness :
    register_new_architecture failYaml trivBuild 1 2 emptyRedis [97] =
      (.error (.badRequest "mapping values are not allowed here"),
       emptyRedis) :=
  register_parse_build_failure_is_badrequest failYaml trivBuild 1 2
    emptyRedis [97] "a" "mapping values are not allowed here" (by decide)
    (Or.inl rfl)

/-- C6: for a label in the static set, resolution returns the statically
built architecture, and the outcome is identical for any two shared-store
states — the shared store is never consulted, so a dynamic entry under the
same label cannot shadow the static architecture. -/
theorem static_arch_ignores_shared_store {Cfg Arch : Type}
    (architectures : String → Option Arch)
    (ysl : String → Except String Cfg)
    (build : String → Cfg → CertCache → Except String Arch)
    (cert_ttl : Nat) (redis redis2 : RedisState) (item : String) (a : Arch)
    (hstatic : architectures item = some a) :
    ArchStore.getitem architectures ysl build cert_ttl redis item = .ok a ∧
    ArchStore.getitem architectures ysl build cert_ttl redis item =
      ArchStore.getitem architectures ysl build cert_ttl redis2 item := by
  unfold ArchStore.getitem
  rw [hstatic]
  exact ⟨rfl, rfl⟩

/-- Witness for C6: the static label `static1` resolves to the static
architecture even when the store holds a conflicting dynamic entry under
that label's config key, and equally over the empty store. -/
theorem static_arch_ignores_shared_store_witness :
    ArchStore.getitem staticOnly trivYaml trivBuildN 1
      (emptyRedis.set (fmt_arch_config_name "static1") [1, 2] 3) "static1" =
      .ok 0 ∧
    ArchStore.getitem staticOnly trivYaml trivBuildN 1
      (emptyRedis.set (fmt_arch_config_name "static1") [1, 2] 3) "static1" =
    ArchStore.getitem staticOnly trivYaml trivBuildN 1 emptyRedis
      "static1" :=
  static_arch_ignores_shared_store staticOnly trivYaml trivBuildN 1
    (emptyRedis.set (fmt_arch_config_name "static1") [1, 2] 3) emptyRedis
    "static1" 0 (by decide)

/-- C7: a label that is neither static nor present in the shared store
under its config key resolves to `NotFound` — no other error and no empty
architecture. -/
theorem unknown_label_raises_notfound {Cfg Arch : Type}
    (architectures : String → Option Arch)
    (ysl : String → Except String Cfg)
    (build : String → Cfg → CertCache → Except String Arch)
    (cert_ttl : Nat) (redis : RedisState) (item : String)
    (hstatic : architectures item = none)
    (hredis : redis.get (fmt_arch_config_name item) = none) :
    ArchStore.getitem architectures ysl build cert_ttl redis item =
      .error .notFound := by
  unfold ArchStore.getitem
  rw [hstatic, hredis]

/-- Witness for C7: an unregistered, non-static label over the empty
store. -/
theorem unknown_label_raises_notfound_witness :
    ArchStore.getitem noStatics trivYaml trivBuildN 1 emptyRedis
      "unregistered" = .error .notFound :=
  unknown_label_raises_notfound noStatics trivYaml trivBuildN 1 emptyRedis
    "unregistered" (by decide) (by decide)

/-- C8: on one Certificate Cache instance, `put(k, v)` followed immediately
by `get(k)` returns `v`, and `get` of a key written neither in the local
mapping nor in the shared store under the cache's key for it fails with
`KeyError` rather than returning a value. -/
theorem cert_cache_put_get_roundtrip (cc cc' : CertCache)
    (item item2 : String) (v : Certificate)
    (hset : cc.setitem item (.cert v) = .ok cc')
    (hm1 : cc.cache.lookup item2 = none)
    (hm2 : cc.redis.get (cc.fmt_item_name item2) = none) :
    cc'.getitem item = .ok (v, cc') ∧
    cc.getitem item2 = .error (.keyError item2) := by
  constructor
  · simp only [CertCache.setitem, Except.ok.injEq] at hset
    subst hset
    simp [CertCache.getitem]
  · simp [CertCache.getitem, hm1, hm2]

/-- Witness for C8: over an empty cache scoped to architecture `a`, put of
certificate `x` followed by get of `x` returns it, and get of the
never-written key `y` raises `KeyError`. -/
theorem cert_cache_put_get_roundtrip_witness :
    CertCache.getitem
      ⟨RedisState.set emptyRedis "certomancer_a_cert_x" [1, 2] 7, "a", 7,
       [("x", ⟨[1, 2]⟩)]⟩ "x" =
      .ok (⟨[1, 2]⟩,
        ⟨RedisState.set emptyRedis "certomancer_a_cert_x" [1, 2] 7, "a", 7,
         [("x", ⟨[1, 2]⟩)]⟩) ∧
    CertCache.getitem ⟨emptyRedis, "a", 7, []⟩ "y" =
      .error (.keyError "y") :=
  cert_cache_put_get_roundtrip ⟨emptyRedis, "a", 7, []⟩
    ⟨RedisState.set emptyRedis "certomancer_a_cert_x" [1, 2] 7, "a", 7,
     [("x", ⟨[1, 2]⟩)]⟩ "x" "y" ⟨[1, 2]⟩ (by decide) (by decide) (by decide)

/-- A certificate cache scoped to architecture `a` whose backing store
holds an entry only under the colon-style key the spec describes. -/
def ccColon : CertCache := ⟨⟨[("a:cert:b", ⟨[1], 9⟩)]⟩, "a", 9, []⟩

/-- C9 counterexample: for architecture `a` and certificate label `b`, the
key the cache queries on a local miss is `certomancer_a_cert_b`, not the
claimed `a:cert:b` — a store holding bytes under `a:cert:b` still makes
`get` fail with `KeyError`, which would be impossible if the claimed key
were queried. -/
theorem cert_cache_key_format_counterexample :
    ccColon.getitem "b" = .error (.keyError "b") ∧
    ccColon.redis.get "a:cert:b" = some [1] ∧
    ccColon.fmt_item_name "b" = "certomancer_a_cert_b" ∧
    (("certomancer_a_cert_b" : String) == "a:cert:b") = false := by decide

/-- C9 (amended): on a local-mapping miss the cache queries the shared
store under the key `certomancer_` + architecture + `_cert_` + label: a
hit under that key is loaded, cached locally and returned, and a miss
under that key raises `KeyError`. -/
theorem cert_cache_miss_queries_underscore_key (cc1 cc2 : CertCache)
    (i1 i2 : String) (r : Bytes)
    (hm1 : cc1.cache.lookup i1 = none)
    (hr1 : cc1.redis.get ("certomancer_" ++ cc1.arch ++ "_cert_" ++ i1) =
      some r)
    (hm2 : cc2.cache.lookup i2 = none)
    (hr2 : cc2.redis.get ("certomancer_" ++ cc2.arch ++ "_cert_" ++ i2) =
      none) :
    cc1.getitem i1 = .ok (Certificate.load r,
      { cc1 with cache := (i1, Certificate.load r) :: cc1.cache }) ∧
    cc2.getitem i2 = .error (.keyError i2) := by
  constructor
  · simp [CertCache.getitem, CertCache.fmt_item_name, fmt_cert_item_name,
      hm1, hr1]
  · simp [CertCache.getitem, CertCache.fmt_item_name, fmt_cert_item_name,
      hm2, hr2]

/-- Witness for the amended C9: a store entry under
`certomancer_a_cert_b` is found and cached for (architecture `a`,
certificate `b`), while (architecture `a`, certificate `c`) misses and
raises `KeyError`. -/
theorem cert_cache_miss_queries_underscore_key_witness :
    CertCache.getitem
      ⟨⟨[("certomancer_a_cert_b", ⟨[1], 9⟩)]⟩, "a", 9, []⟩ "b" =
      .ok (Certificate.load [1],
        { (⟨⟨[("certomancer_a_cert_b", ⟨[1], 9⟩)]⟩, "a", 9, []⟩ : CertCache)
          with cache := ("b", Certificate.load [1]) :: [] }) ∧
    CertCache.getitem ⟨emptyRedis, "a", 9, []⟩ "c" =
      .error (.keyError "c") :=
  cert_cache_miss_queries_underscore_key
    ⟨⟨[("certomancer_a_cert_b", ⟨[1], 9⟩)]⟩, "a", 9, []⟩
    ⟨emptyRedis, "a", 9, []⟩ "b" "c" [1] (by decide) (by decide) (by decide)
    (by decide)

/-- C10: the shared-store key-formatting functions are not injective — the
config key of architecture `x_cert_y` coincides with the certificate key
of (architecture `x`, certificate `y_config`), and the distinct pairs
(architecture `a`, certificate `b_cert_c`) and (architecture `a_cert_b`,
certificate `c`) share one certificate key, so labels containing
underscores can alias one another in the store. -/
theorem key_formatting_not_injective :
    fmt_arch_config_name "x_cert_y" = "certomancer_x_cert_y_config" ∧
    fmt_cert_item_name "x" "y_config" = "certomancer_x_cert_y_config" ∧
    (("x_cert_y" : String) == "x") = false ∧
    fmt_cert_item_name "a" "b_cert_c" = "certomancer_a_cert_b_cert_c" ∧
    fmt_cert_item_name "a_cert_b" "c" = "certomancer_a_cert_b_cert_c" ∧
    (("a" : String) == "a_cert_b") = false ∧
    (("b_cert_c" : String) == "c") = false := by decide
